import Mathlib

/-!
Verification of the voice-secretary app (`section_3/app.py`).

The Python source is shallowly embedded: every external service call
(speech recognition, agent execution runtime, speech synthesis, session
store) is represented by an oracle value recording the outcome of the
single call the handler makes to it during one interaction; a Python
exception raised by a service is an `Except.error` carrying the
exception's message.  Mutable lists become explicit values, and the
handlers become pure functions from their inputs and the oracle
outcomes to their results.
-/

namespace VoiceSecretary

/-- One chat turn, `{"role": ..., "content": ...}` in the Python source. -/
structure Turn where
  role : String
  content : String
deriving DecidableEq, Repr

/-- Outcomes of the external services for one interaction:
`sttProvider` is the result of `client.audio.transcriptions.create`
(`.error e` models a raised exception, `.ok t` a response object whose
`text` field is `t`, with `none` modelling Python `None`);
`agentRun` is the result of `Runner.run` (`.ok o` a result whose
`final_output` is `o`); `ttsCall text voice` is the result of the
speech-synthesis call on the given text and voice (`.ok p` means the
audio was streamed to the temporary file `p`). -/
structure Env where
  sttProvider : Except String (Option String)
  agentRun : Except String (Option String)
  ttsCall : String → String → Except String String

/-- Python's `str.strip()`: drop whitespace from both ends. -/
def pyStrip (s : String) : String :=
  ⟨((s.data.dropWhile Char.isWhitespace).reverse.dropWhile
      Char.isWhitespace).reverse⟩

/-- Embedding of `speech_to_text`: propagates a provider exception,
otherwise returns `(tr.text or "").strip()`. -/
def speech_to_text (env : Env) : Except String String :=
  match env.sttProvider with
  | .error e => .error e
  | .ok t => .ok (pyStrip (t.getD ""))

/-- Embedding of `text_to_speech`: a single call to the synthesis
endpoint on the given text and voice, returning the temp-file path. -/
def text_to_speech (env : Env) (text : String) (voice : String) :
    Except String String :=
  env.ttsCall text voice

/-- Embedding of the tool `add_todo` acting on an explicit to-do list:
returns the tool's reply string together with the new list. -/
def add_todo (todo : List String) (task : String) : String × List String :=
  if pyStrip task = "" then
    ("空のタスクは追加できません。", todo)
  else
    let newTodo := todo ++ [pyStrip task]
    ("タスクを追加: " ++ task ++ "（合計 " ++ toString newTodo.length ++ " 件）",
     newTodo)

/-- Embedding of the tool `list_todo`: returns the current list. -/
def list_todo (todo : List String) : List String :=
  todo

/-- Embedding of the tool `clear_todo`: reply string and emptied list. -/
def clear_todo (_todo : List String) : String × List String :=
  ("タスクをすべて削除しました。", [])

/-- Civil date (year, month, day) of a day count since 1970-01-01,
modelling the Gregorian-calendar arithmetic that Python's `datetime`
performs (Howard Hinnant's `civil_from_days`, specialised to
non-negative day counts). -/
def civilFromDays (days : Nat) : Nat × Nat × Nat :=
  let z := days + 719468
  let era := z / 146097
  let doe := z % 146097
  let yoe := (doe - doe / 1460 + doe / 36524 - doe / 146096) / 365
  let doy := doe - (365 * yoe + yoe / 4 - yoe / 100)
  let mp := (5 * doy + 2) / 153
  let d := doy - (153 * mp + 2) / 5 + 1
  let m := if mp < 10 then mp + 3 else mp - 9
  let y := if m ≤ 2 then era * 400 + yoe + 1 else era * 400 + yoe
  (y, m, d)

/-- Zero-pad a number to two digits, as `%m`, `%d`, `%H`, `%M` do. -/
def pad2 (n : Nat) : String :=
  if n < 10 then "0" ++ toString n else toString n

/-- Zero-pad a number to four digits, as `%Y` does. -/
def pad4 (n : Nat) : String :=
  if n < 10 then "000" ++ toString n
  else if n < 100 then "00" ++ toString n
  else if n < 1000 then "0" ++ toString n
  else toString n

/-- `strftime("%Y-%m-%d %H:%M")` on a timestamp given as seconds since
the epoch, already expressed in the target timezone. -/
def strftimeYmdHm (secs : Nat) : String :=
  let dayPart := civilFromDays (secs / 86400)
  let rem := secs % 86400
  pad4 dayPart.1 ++ "-" ++ pad2 dayPart.2.1 ++ "-" ++ pad2 dayPart.2.2 ++
    " " ++ pad2 (rem / 3600) ++ ":" ++ pad2 (rem % 3600 / 60)

/-- The fixed offset of the `JST` timezone object, in seconds
(`timedelta(hours=9)`). -/
def JST_offset_seconds : Nat := 9 * 3600

/-- Embedding of the tool `now`: `utcSecs` is the current instant as
seconds since the epoch in UTC, `hostOffset` the host's local timezone
offset.  `datetime.now(JST)` uses the explicit `JST` object, so the
host offset is never consulted. -/
def now (utcSecs : Nat) (_hostOffset : Int) : String :=
  strftimeYmdHm (utcSecs + JST_offset_seconds)

/-- The greeting constant `GREETING`. -/
def GREETING : String := "こんにちは。秘書のエコです。ご用件をどうぞ。"

/-- Python truthiness of the `audio_file` argument (a filepath string
or `None`): truthy iff present and non-empty. -/
def truthyOptStr : Option String → Bool
  | none => false
  | some s => s ≠ ""

/-- The reply text produced by the agent stage: `(result.final_output
or "").strip()` on success, the apology message on a raised
exception. -/
def bot_text_of (env : Env) : String :=
  match env.agentRun with
  | .ok o => pyStrip (o.getD "")
  | .error e => "回答生成でエラーが発生しました: " ++ e

/-- The tail of `handle_interaction` from the empty-input guard on:
takes the transcript as built so far and the resolved `user_text`, and
performs the guard, the user-turn append, the agent run, the reply
append and the synthesis attempt exactly as the Python source does. -/
def handle_from_text (env : Env) (voice : String) (ms : List Turn)
    (user_text : String) : List Turn × Option String :=
  if user_text = "" then
    (ms ++ [⟨"assistant", "音声またはテキストで話しかけてください。"⟩], none)
  else
    let ms1 := ms ++ [⟨"user", user_text⟩]
    let ms2 := ms1 ++ [⟨"assistant", bot_text_of env⟩]
    match text_to_speech env (bot_text_of env) voice with
    | .ok p => (ms2, some p)
    | .error e => (ms2 ++ [⟨"assistant", "音声合成に失敗しました: " ++ e⟩], none)

/-- Embedding of `handle_interaction`: resolves the input (audio takes
priority; a transcription exception records an error turn and leaves
`user_text` empty), then continues with `handle_from_text`.  Returns
the updated transcript and the synthesized-audio path, `none` when no
audio was produced. -/
def handle_interaction (env : Env) (audio_file : Option String)
    (textIn : Option String) (voice : String)
    (messages : Option (List Turn)) : List Turn × Option String :=
  let ms := messages.getD []
  if truthyOptStr audio_file then
    match speech_to_text env with
    | .ok t => handle_from_text env voice ms t
    | .error e =>
        handle_from_text env voice
          (ms ++ [⟨"assistant", "文字起こしエラー: " ++ e⟩]) ""
  else
    handle_from_text env voice ms (pyStrip (textIn.getD ""))

/-- Embedding of `clear_all`: empties the to-do list, attempts
`session.clear_session()` (its outcome `sessionClear` is swallowed by
the bare `except: pass`), and returns the fresh greeting transcript
with no audio.  The result triple is (new to-do list, transcript,
audio path). -/
def clear_all (_todo : List String) (sessionClear : Except String Unit) :
    List String × List Turn × Option String :=
  match sessionClear with
  | .ok _ => ([], [⟨"assistant", GREETING⟩], none)
  | .error _ => ([], [⟨"assistant", GREETING⟩], none)

/-- The `user_text` value that `handle_interaction` resolves from its
inputs before the empty-input guard. -/
def resolved_text (env : Env) (audio_file : Option String)
    (textIn : Option String) : String :=
  if truthyOptStr audio_file then
    match speech_to_text env with
    | .ok t => t
    | .error _ => ""
  else
    pyStrip (textIn.getD "")

/-- Concrete oracle used to exhibit the transcription-failure path:
the transcription call raises with message `boom`; the remaining
services would succeed but are never consulted on this path. -/
def envSttFails : Env :=
  { sttProvider := .error "boom"
    agentRun := .ok (some "ok")
    ttsCall := fun _ _ => .ok "p.mp3" }

/-- Claim C2: `add_todo` on a task that is empty after trimming
returns a user-facing message and leaves the list unchanged; on any
other task it appends the trimmed task, a subsequent `list_todo` ends
with that trimmed string, and the count in the reported message is the
length of the list after the append. -/
theorem C2_add_todo_contract (todo : List String) (task : String) :
    (pyStrip task = "" → add_todo todo task = ("空のタスクは追加できません。", todo)) ∧
    (pyStrip task ≠ "" →
      (add_todo todo task).2 = todo ++ [pyStrip task] ∧
      (list_todo (add_todo todo task).2).getLast? = some (pyStrip task) ∧
      (add_todo todo task).1 =
        "タスクを追加: " ++ task ++ "（合計 " ++
          toString (add_todo todo task).2.length ++ " 件）") := by
  constructor
  · intro h
    simp [add_todo, h]
  · intro h
    simp [add_todo, h, list_todo]

/-- Witness for C2 at concrete inputs: a whitespace-only task is
rejected with the list untouched, and adding `" b "` to `["a"]`
appends the trimmed `"b"`. -/
theorem C2_add_todo_contract_witness :
    add_todo [] " " = ("空のタスクは追加できません。", []) ∧
    (add_todo ["a"] " b ").2 = ["a", "b"] := by
  refine ⟨(C2_add_todo_contract [] " ").1 (by decide), ?_⟩
  have h := ((C2_add_todo_contract ["a"] " b ").2 (by decide)).1
  simpa using h

/-- Claim C6: `clear_all` always returns the empty to-do list, a
one-turn greeting transcript and no audio path, for every prior to-do
list and whether or not the external session-clear call fails. -/
theorem C6_clear_all_contract (todo : List String)
    (sessionClear : Except String Unit) :
    clear_all todo sessionClear = ([], [⟨"assistant", GREETING⟩], none) ∧
    (clear_all todo sessionClear).2.1.length = 1 := by
  cases sessionClear <;> exact ⟨rfl, rfl⟩

/-- Claim C10: calling `handle_interaction` with an absent transcript
behaves exactly as calling it with the empty transcript, for every
oracle outcome and every other input (`messages or []`). -/
theorem C10_none_transcript_is_empty (env : Env) (audio_file : Option String)
    (textIn : Option String) (voice : String) :
    handle_interaction env audio_file textIn voice none =
      handle_interaction env audio_file textIn voice (some []) := rfl

/-- Claim C8: `now` renders the current instant shifted by the fixed
+9-hour offset, never consulting the host timezone offset, in the
`YYYY-MM-DD HH:MM` shape (checked concretely at the epoch and at a
2025 instant). It is a total function of the instant alone. -/
theorem C8_now_contract (t : Nat) (h h₂ : Int) :
    now t h = now t h₂ ∧
    now t h = strftimeYmdHm (t + 9 * 3600) ∧
    now 0 0 = "1970-01-01 09:00" ∧
    now 1760246400 0 = "2025-10-12 14:20" := by
  refine ⟨rfl, rfl, by decide, by decide⟩

/-- Claim C3: with no audio file and absent, empty or whitespace-only
text input, the handler appends exactly one assistant
prompt-for-input turn, no user turn, and returns no audio path; the
output does not depend on the agent or synthesis oracles. -/
theorem C3_empty_input_guard (env : Env) (textIn : Option String)
    (voice : String) (messages : Option (List Turn))
    (h : pyStrip (textIn.getD "") = "") :
    handle_interaction env none textIn voice messages =
      ((messages.getD []) ++
        [⟨"assistant", "音声またはテキストで話しかけてください。"⟩], none) := by
  simp [handle_interaction, truthyOptStr, handle_from_text, h]

/-- Witness for C3: empty text with a transcript of one turn. -/
theorem C3_empty_input_guard_witness :
    pyStrip (((some "  ") : Option String).getD "") = "" ∧
    handle_interaction envSttFails none (some "  ") "alloy"
        (some [⟨"assistant", GREETING⟩]) =
      ([⟨"assistant", GREETING⟩,
        ⟨"assistant", "音声またはテキストで話しかけてください。"⟩], none) := by
  refine ⟨by decide, ?_⟩
  exact C3_empty_input_guard envSttFails (some "  ") "alloy"
    (some [⟨"assistant", GREETING⟩]) (by decide)

/-- Claim C1 counterexample: on a transcription failure the handler
appends TWO assistant turns, not one — the transcription-error turn is
followed by the empty-input prompt turn, because `user_text` is set to
the empty string and control falls through to the empty-input guard.
Starting from the empty transcript, the result has two new turns. -/
theorem C1_counterexample :
    (handle_interaction envSttFails (some "a.wav") none "alloy"
        (some [])).1 =
      [⟨"assistant", "文字起こしエラー: boom"⟩,
       ⟨"assistant", "音声またはテキストで話しかけてください。"⟩] ∧
    (handle_interaction envSttFails (some "a.wav") none "alloy"
        (some [])).1.length ≠ 1 := by
  exact ⟨by decide, by decide⟩

/-- Claim C1 as amended: when the transcription call raises, the
handler appends exactly TWO new turns, both with role `assistant` (the
transcription-error turn followed by the prompt-for-input turn), adds
no user turn, returns no audio path, and never invokes the agent: the
right-hand side is independent of `env.agentRun` and `env.ttsCall`,
over which the theorem quantifies. -/
theorem C1_transcription_failure_two_assistant_turns (env : Env)
    (audio_file textIn : Option String) (voice : String) (ms : List Turn)
    (e : String) (haudio : truthyOptStr audio_file = true)
    (hstt : env.sttProvider = .error e) :
    handle_interaction env audio_file textIn voice (some ms) =
      (ms ++ [⟨"assistant", "文字起こしエラー: " ++ e⟩,
              ⟨"assistant", "音声またはテキストで話しかけてください。"⟩], none) := by
  simp [handle_interaction, speech_to_text, hstt, haudio, handle_from_text]

/-- Witness for the amended C1 at a concrete failing transcription. -/
theorem C1_transcription_failure_two_assistant_turns_witness :
    truthyOptStr (some "a.wav") = true ∧
    handle_interaction envSttFails (some "a.wav") none "alloy"
        (some [⟨"assistant", GREETING⟩]) =
      ([⟨"assistant", GREETING⟩,
        ⟨"assistant", "文字起こしエラー: boom"⟩,
        ⟨"assistant", "音声またはテキストで話しかけてください。"⟩], none) := by
  refine ⟨by decide, ?_⟩
  exact C1_transcription_failure_two_assistant_turns envSttFails
    (some "a.wav") none "alloy" [⟨"assistant", GREETING⟩] "boom"
    (by decide) rfl

/-- Concrete oracle where transcription succeeds with `" hi "`, the
agent succeeds with `" ok "`, but synthesis raises. -/
def envAudioSynthFails : Env :=
  { sttProvider := .ok (some " hi ")
    agentRun := .ok (some " ok ")
    ttsCall := fun _ _ => .error "efail" }

/-- Concrete oracle where transcription succeeds with `" hi "`, the
agent raises, and synthesis raises as well. -/
def envAudioAgentFails : Env :=
  { sttProvider := .ok (some " hi ")
    agentRun := .error "afail"
    ttsCall := fun _ _ => .error "tfail" }

/-- Concrete oracle where every external call raises. -/
def envAllFail : Env :=
  { sttProvider := .error "S"
    agentRun := .error "A"
    ttsCall := fun _ _ => .error "T" }

/-- The guard-to-synthesis tail only ever appends to the transcript it
is given. -/
lemma handle_from_text_extends (env : Env) (voice : String)
    (ms : List Turn) (t : String) :
    ∃ s, (handle_from_text env voice ms t).1 = ms ++ s := by
  unfold handle_from_text
  by_cases h : t = ""
  · exact ⟨[⟨"assistant", "音声またはテキストで話しかけてください。"⟩], by simp [h]⟩
  · cases htts : text_to_speech env (bot_text_of env) voice with
    | ok p =>
        exact ⟨[⟨"user", t⟩, ⟨"assistant", bot_text_of env⟩],
          by simp [h, htts]⟩
    | error e =>
        exact ⟨[⟨"user", t⟩, ⟨"assistant", bot_text_of env⟩,
                ⟨"assistant", "音声合成に失敗しました: " ++ e⟩],
          by simp [h, htts]⟩

/-- Claim C9: for every input and oracle outcome, the transcript
returned by the handler is the input transcript followed by the newly
appended turns — existing turns are never deleted, edited or
reordered. -/
theorem C9_transcript_append_only (env : Env)
    (audio_file textIn : Option String) (voice : String) (ms : List Turn) :
    ∃ s, (handle_interaction env audio_file textIn voice (some ms)).1 =
      ms ++ s := by
  unfold handle_interaction
  by_cases ha : truthyOptStr audio_file = true
  · cases hstt : speech_to_text env with
    | ok t =>
        obtain ⟨s, hs⟩ := handle_from_text_extends env voice ms t
        exact ⟨s, by simp [ha, hstt, hs]⟩
    | error e =>
        obtain ⟨s, hs⟩ := handle_from_text_extends env voice
          (ms ++ [⟨"assistant", "文字起こしエラー: " ++ e⟩]) ""
        exact ⟨[⟨"assistant", "文字起こしエラー: " ++ e⟩] ++ s,
          by simp [ha, hstt, hs]⟩
  · obtain ⟨s, hs⟩ := handle_from_text_extends env voice ms
      (pyStrip (textIn.getD ""))
    exact ⟨s, by simp [ha, hs]⟩

/-- On a non-empty resolved input, a raised agent run leaves its
apology turn in the tail's transcript. -/
lemma mem_handle_from_text_agent_err (env : Env) (voice : String)
    (ms : List Turn) (t e : String) (ht : t ≠ "")
    (hagent : env.agentRun = .error e) :
    (⟨"assistant", "回答生成でエラーが発生しました: " ++ e⟩ : Turn) ∈
      (handle_from_text env voice ms t).1 := by
  unfold handle_from_text
  have hb : bot_text_of env = "回答生成でエラーが発生しました: " ++ e := by
    simp [bot_text_of, hagent]
  cases htts : text_to_speech env (bot_text_of env) voice with
  | ok p => simp [ht, htts, hb]
  | error e2 => simp [ht, htts, hb]

/-- On a non-empty resolved input, a raised synthesis call leaves its
error turn in the tail's transcript. -/
lemma mem_handle_from_text_tts_err (env : Env) (voice : String)
    (ms : List Turn) (t e : String) (ht : t ≠ "")
    (htts : env.ttsCall (bot_text_of env) voice = .error e) :
    (⟨"assistant", "音声合成に失敗しました: " ++ e⟩ : Turn) ∈
      (handle_from_text env voice ms t).1 := by
  unfold handle_from_text
  simp [ht, text_to_speech, htts]

/-- For a non-empty resolved input, the handler runs the tail on that
input (with the transcript unchanged on the non-audio path). -/
lemma handle_interaction_eq_tail (env : Env)
    (audio_file textIn : Option String) (voice : String)
    (ms : Option (List Turn))
    (hres : resolved_text env audio_file textIn ≠ "") :
    handle_interaction env audio_file textIn voice ms =
      handle_from_text env voice (ms.getD [])
        (resolved_text env audio_file textIn) := by
  unfold handle_interaction resolved_text
  by_cases ha : truthyOptStr audio_file = true
  · cases hstt : speech_to_text env with
    | ok t => simp [ha, hstt]
    | error e =>
        rw [resolved_text] at hres
        simp [ha, hstt] at hres
  · simp [ha]

/-- Claim C4: in every interaction whose resolved input is non-empty
(whether typed or transcribed from audio), when the agent produced a
reply but synthesis raises, the returned transcript still ends with
the reply turn followed by exactly one assistant error turn, and the
audio path is absent. -/
theorem C4_synthesis_failure_keeps_reply (env : Env)
    (audio_file textIn : Option String) (voice : String)
    (ms : Option (List Turn)) (e reply : String)
    (hres : resolved_text env audio_file textIn ≠ "")
    (hagent : env.agentRun = .ok (some reply))
    (htts : env.ttsCall (pyStrip reply) voice = .error e) :
    handle_interaction env audio_file textIn voice ms =
      ((ms.getD []) ++
        [⟨"user", resolved_text env audio_file textIn⟩,
         ⟨"assistant", pyStrip reply⟩,
         ⟨"assistant", "音声合成に失敗しました: " ++ e⟩], none) := by
  rw [handle_interaction_eq_tail env audio_file textIn voice ms hres]
  have hb : bot_text_of env = pyStrip reply := by simp [bot_text_of, hagent]
  unfold handle_from_text
  simp [hres, text_to_speech, hb, htts]

/-- Witness for C4 on the audio path: transcription yields `" hi "`,
the agent replies `" ok "`, synthesis fails. -/
theorem C4_synthesis_failure_keeps_reply_witness :
    resolved_text envAudioSynthFails (some "a.wav") none ≠ "" ∧
    handle_interaction envAudioSynthFails (some "a.wav") none "alloy"
        (some []) =
      ([⟨"user", "hi"⟩, ⟨"assistant", "ok"⟩,
        ⟨"assistant", "音声合成に失敗しました: efail"⟩], none) := by
  refine ⟨by decide, ?_⟩
  exact C4_synthesis_failure_keeps_reply envAudioSynthFails (some "a.wav")
    none "alloy" (some []) "efail" " ok " (by decide) rfl rfl

/-- Claim C5: in every interaction whose resolved input is non-empty
(typed or transcribed), when the agent run raises, the handler appends
an assistant turn carrying the apology message with the error detail
(which is never the empty string), and the remainder of the
interaction is exactly the synthesis attempt applied to that apology
text. -/
theorem C5_agent_failure_apology (env : Env)
    (audio_file textIn : Option String) (voice : String)
    (ms : Option (List Turn)) (e : String)
    (hres : resolved_text env audio_file textIn ≠ "")
    (hagent : env.agentRun = .error e) :
    ("回答生成でエラーが発生しました: " ++ e) ≠ "" ∧
    handle_interaction env audio_file textIn voice ms =
      (match env.ttsCall ("回答生成でエラーが発生しました: " ++ e) voice with
       | .ok p =>
          ((ms.getD []) ++
            [⟨"user", resolved_text env audio_file textIn⟩,
             ⟨"assistant", "回答生成でエラーが発生しました: " ++ e⟩], some p)
       | .error e2 =>
          ((ms.getD []) ++
            [⟨"user", resolved_text env audio_file textIn⟩,
             ⟨"assistant", "回答生成でエラーが発生しました: " ++ e⟩,
             ⟨"assistant", "音声合成に失敗しました: " ++ e2⟩], none)) := by
  constructor
  · intro hc
    have h := congrArg String.length hc
    rw [String.length_append] at h
    simp at h
    exact absurd h.1 (by decide)
  · have hb : bot_text_of env = "回答生成でエラーが発生しました: " ++ e := by
      simp [bot_text_of, hagent]
    cases htts : env.ttsCall ("回答生成でエラーが発生しました: " ++ e) voice with
    | ok p =>
        rw [handle_interaction_eq_tail env audio_file textIn voice ms hres]
        unfold handle_from_text
        simp [hres, text_to_speech, hb, htts]
    | error e2 =>
        rw [handle_interaction_eq_tail env audio_file textIn voice ms hres]
        unfold handle_from_text
        simp [hres, text_to_speech, hb, htts]

/-- Witness for C5 on the audio path: transcription yields `" hi "`,
the agent raises `afail`, synthesis raises `tfail` on the apology
text. -/
theorem C5_agent_failure_apology_witness :
    resolved_text envAudioAgentFails (some "a.wav") none ≠ "" ∧
    handle_interaction envAudioAgentFails (some "a.wav") none "alloy"
        (some []) =
      ([⟨"user", "hi"⟩,
        ⟨"assistant", "回答生成でエラーが発生しました: afail"⟩,
        ⟨"assistant", "音声合成に失敗しました: tfail"⟩], none) := by
  refine ⟨by decide, ?_⟩
  exact (C5_agent_failure_apology envAudioAgentFails (some "a.wav") none
    "alloy" (some []) "afail" (by decide) rfl).2

/-- Claim C7: the handler always returns a transcript-path pair (the
embedding is a total function: no oracle failure escapes it), and each
kind of failure is recovered locally by a user-visible error turn in
the returned transcript: a raised transcription leaves the
transcription-error turn, a raised agent run the apology turn, and a
raised synthesis call the synthesis-error turn. -/
theorem C7_failures_recovered_locally (env : Env)
    (audio_file textIn : Option String) (voice : String)
    (ms : Option (List Turn)) :
    (∃ t p, handle_interaction env audio_file textIn voice ms = (t, p)) ∧
    (∀ e, truthyOptStr audio_file = true → env.sttProvider = .error e →
      (⟨"assistant", "文字起こしエラー: " ++ e⟩ : Turn) ∈
        (handle_interaction env audio_file textIn voice ms).1) ∧
    (∀ e, resolved_text env audio_file textIn ≠ "" →
      env.agentRun = .error e →
      (⟨"assistant", "回答生成でエラーが発生しました: " ++ e⟩ : Turn) ∈
        (handle_interaction env audio_file textIn voice ms).1) ∧
    (∀ e, resolved_text env audio_file textIn ≠ "" →
      (∀ s v, env.ttsCall s v = .error e) →
      (⟨"assistant", "音声合成に失敗しました: " ++ e⟩ : Turn) ∈
        (handle_interaction env audio_file textIn voice ms).1) := by
  refine ⟨⟨_, _, rfl⟩, ?_, ?_, ?_⟩
  · intro e ha hstt
    simp [handle_interaction, ha, speech_to_text, hstt, handle_from_text]
  · intro e hres hagent
    rw [handle_interaction_eq_tail env audio_file textIn voice ms hres]
    exact mem_handle_from_text_agent_err env voice (ms.getD [])
      (resolved_text env audio_file textIn) e hres hagent
  · intro e hres htts
    rw [handle_interaction_eq_tail env audio_file textIn voice ms hres]
    exact mem_handle_from_text_tts_err env voice (ms.getD [])
      (resolved_text env audio_file textIn) e hres
      (htts (bot_text_of env) voice)

/-- Witness for C7: with every oracle raising, the audio path shows
the transcription-error turn and the text path shows both the apology
turn and the synthesis-error turn. -/
theorem C7_failures_recovered_locally_witness :
    (⟨"assistant", "文字起こしエラー: S"⟩ : Turn) ∈
      (handle_interaction envAllFail (some "a.wav") none "alloy"
        (some [])).1 ∧
    (⟨"assistant", "回答生成でエラーが発生しました: A"⟩ : Turn) ∈
      (handle_interaction envAllFail none (some "hi") "alloy"
        (some [])).1 ∧
    (⟨"assistant", "音声合成に失敗しました: T"⟩ : Turn) ∈
      (handle_interaction envAllFail none (some "hi") "alloy"
        (some [])).1 := by
  refine ⟨?_, ?_, ?_⟩
  · exact (C7_failures_recovered_locally envAllFail (some "a.wav") none
      "alloy" (some [])).2.1 "S" (by decide) rfl
  · exact (C7_failures_recovered_locally envAllFail none (some "hi")
      "alloy" (some [])).2.2.1 "A" (by decide) rfl
  · exact (C7_failures_recovered_locally envAllFail none (some "hi")
      "alloy" (some [])).2.2.2 "T" (by decide) (fun _ _ => rfl)

end VoiceSecretary
